import Mathlib

/-!
Shallow embedding of the `Metric` base class from
`src/keras_core/metrics/metric.py`.

Modelling conventions:
* A state variable (`backend.Variable`) is a record of its object identity
  (`vid`), shape, dtype, name and trainable flag; its mutable numeric
  content lives in a `Store` mapping identities to values.  Tensor contents
  are modelled as one integer per variable (the claims concern only
  zero-assignment and value preservation, never tensor arithmetic).
* A `Metric` carries its object identity (`oid`), `name`, `_dtype`,
  `_metrics` (child registry), `_variables` (own variable registry), a flag
  recording whether `Metric.__init__` completed (Python:
  `hasattr(self, "_tracker")`), and the tracker `stored_ids` sets for both
  categories.
* Raising is modelled with `Except MetricError`.
-/

namespace KerasCore

/-- Numeric content of a state variable. -/
abbrev Value := Int

/-- Modelled from the spec: `backend.Variable` is not under src/; the spec
describes a state variable as "a named, shaped, typed mutable numeric
container, ... marked non-trainable", created by a primitive taking
(shape, initializer, dtype, trainable-flag, name).  The record keeps the
object identity `vid` plus that metadata; the mutable content lives in the
`Store`. -/
structure MVariable where
  vid : Nat
  shape : List Nat
  vdtype : Option String
  vname : Option String
  trainable : Bool
deriving DecidableEq, Repr

/-- The store of variable contents, keyed by variable identity. -/
abbrev Store := Nat → Value

/-- Assignment `v.assign(x)`: point update of the store. -/
def Store.assign (σ : Store) (i : Nat) (x : Value) : Store :=
  fun j => if j = i then x else σ j

/-- Modelled from the spec: initializers are not under src/; the spec
describes an initializer as "a pluggable strategy producing an initial
value for a state variable". -/
structure Initializer where
  initValue : Value
deriving DecidableEq, Repr

/-- Modelled from the spec: `initializers.get` is "an
initializer-resolution function mapping a name or spec to an initializer
object"; an already-resolved initializer passes through unchanged. -/
def initializersGet (i : Initializer) : Initializer := i

/-- Modelled from the spec: `backend.Variable(initializer=..., shape=...,
dtype=..., trainable=..., name=...)` is "a variable-creation primitive
taking (shape, initializer, dtype, trainable-flag, name) and returning a
mutable numeric container".  Here `fresh` is the object identity of the
new variable; its initial content is written to the store by the caller. -/
def backendVariable (fresh : Nat) (shape : List Nat) (dtype : Option String)
    (trainable : Bool) (name : Option String) : MVariable :=
  ⟨fresh, shape, dtype, name, trainable⟩

/-- Modelled from the spec: `auto_name` is "a name-uniquification
function"; names are "auto-generated if absent" from the class name.  The
global uniquification counter is irrelevant to every claim; what matters
is that the generated name is derived from the class name and nonempty. -/
def autoName (clsName : String) : String := clsName ++ "_1"

/-- Python `name or default` for an optional string: `None` and the empty
string are falsy. -/
def pyOrName : Option String → String → String
  | some s, d => if s = "" then d else s
  | none, d => d

/-- The `Metric` object state.  Fields mirror the attributes set in
`Metric.__init__` plus the object identity `oid` (Python `id(self)`) and
`hasTracker` (whether `__init__` completed, i.e.
`hasattr(self, "_tracker")`).  The fields `storedVarIds` and
`storedMetricIds` are the tracker sets `stored_ids["variables"]` and
`stored_ids["metrics"]`. -/
inductive Metric where
  | mk (oid : Nat) (name : String) (dtype : Option String)
       (metricsList : List Metric) (varsList : List MVariable)
       (hasTracker : Bool)
       (storedVarIds : List Nat) (storedMetricIds : List Nat)
deriving Repr

def Metric.oid : Metric → Nat
  | .mk o _ _ _ _ _ _ _ => o

def Metric.name : Metric → String
  | .mk _ n _ _ _ _ _ _ => n

/-- Field `self._dtype`, read back by the `dtype` property. -/
def Metric.dtype : Metric → Option String
  | .mk _ _ d _ _ _ _ _ => d

/-- Field `self._metrics`: the child-metric registry. -/
def Metric.metricsList : Metric → List Metric
  | .mk _ _ _ ms _ _ _ _ => ms

/-- Field `self._variables`: the own-variable registry. -/
def Metric.varsList : Metric → List MVariable
  | .mk _ _ _ _ vs _ _ _ => vs

/-- Whether `Metric.__init__` has completed on this instance. -/
def Metric.hasTracker : Metric → Bool
  | .mk _ _ _ _ _ t _ _ => t

def Metric.storedVarIds : Metric → List Nat
  | .mk _ _ _ _ _ _ svi _ => svi

def Metric.storedMetricIds : Metric → List Nat
  | .mk _ _ _ _ _ _ _ smi => smi

/-- Constructor `Metric.__init__(self, dtype=None, name=None)`: sets
`self.name = name or auto_name(self.__class__.__name__)`, `self._dtype`,
empty registries and the tracker. -/
def Metric.init (oid : Nat) (clsName : String) (dtype : Option String)
    (name : Option String) : Metric :=
  .mk oid (pyOrName name (autoName clsName)) dtype [] [] true [] []

/-- The two error kinds raised by `metric.py`: `RuntimeError` from
`_check_super_called` and `NotImplementedError` from the default
`update_state` and `result`. -/
inductive MetricError where
  | superNotCalled
  | notImplementedError
deriving DecidableEq, Repr

/-- Source `Metric._check_super_called`: raises `RuntimeError` when
`hasattr(self, "_tracker")` is false. -/
def Metric.check_super_called (m : Metric) : Except MetricError Unit :=
  if m.hasTracker then .ok () else .error .superNotCalled

/-- Default `Metric.update_state(self, *args, **kwargs)`: unconditionally
`raise NotImplementedError`. -/
def Metric.update_state (_m : Metric) (_args : List Value) :
    Except MetricError Metric :=
  .error .notImplementedError

/-- Default `Metric.result(self)`: unconditionally
`raise NotImplementedError`. -/
def Metric.result (_m : Metric) (_σ : Store) : Except MetricError Value :=
  .error .notImplementedError

/-- The `variables` property: `self._variables[:]` then, for each child in
`self._metrics`, `variables.extend(metric._variables)`. -/
def Metric.variables (m : Metric) : List MVariable :=
  m.metricsList.foldl (fun acc child => acc ++ child.varsList) m.varsList

/-- Source `Metric.reset_state`: `for v in self.variables: v.assign(0)`. -/
def Metric.reset_state (m : Metric) (σ : Store) : Store :=
  m.variables.foldl (fun s v => s.assign v.vid 0) σ

/-- Source `Metric.add_variable(self, shape, initializer, dtype=None,
name=None)`: checks construction, resolves the initializer, creates a
non-trainable variable, appends it to `self._variables`, records its id in
`self._tracker.stored_ids["variables"]` and returns it.  Here `fresh` is
the identity the runtime gives the new variable. -/
def Metric.add_variable (m : Metric) (σ : Store) (fresh : Nat)
    (shape : List Nat) (initializer : Initializer) (dtype : Option String)
    (name : Option String) : Except MetricError (Metric × Store × MVariable) :=
  match m.check_super_called with
  | .error e => .error e
  | .ok _ =>
    let iRes := initializersGet initializer
    let v := backendVariable fresh shape dtype false name
    let σ2 := σ.assign fresh iRes.initValue
    match m with
    | .mk oid n d ms vs t svi smi =>
      .ok (.mk oid n d ms (vs ++ [v]) t (svi ++ [fresh]) smi, σ2, v)

/-- Source `Metric.add_weight(self, *args, **kwargs)`: backwards
compatibility alias, delegates to `add_variable`. -/
def Metric.add_weight (m : Metric) (σ : Store) (fresh : Nat)
    (shape : List Nat) (initializer : Initializer) (dtype : Option String)
    (name : Option String) : Except MetricError (Metric × Store × MVariable) :=
  m.add_variable σ fresh shape initializer dtype name

/-- A value being assigned to an attribute, as classified by the tracking
hook: a state variable, a `Metric` instance, or anything else. -/
inductive TrackedValue where
  | var (w : MVariable)
  | metric (c : Metric)
  | other

/-- Modelled from the spec: `Tracker.track(value)` is not under src/; the
spec describes the hook as recognizing "values that are state variables or
Metric instances" and registering them "into the corresponding registry
exactly once (by identity)".  Registration appends to the registry list
and records the identity in `stored_ids`. -/
def trackerTrack : Metric → TrackedValue → Metric
  | .mk oid n d ms vs t svi smi, .var w =>
    if w.vid ∈ svi then .mk oid n d ms vs t svi smi
    else .mk oid n d ms (vs ++ [w]) t (svi ++ [w.vid]) smi
  | .mk oid n d ms vs t svi smi, .metric c =>
    if c.oid ∈ smi then .mk oid n d ms vs t svi smi
    else .mk oid n d (ms ++ [c]) vs t svi (smi ++ [c.oid])
  | m, .other => m

/-- Source `Metric.__setattr__`: passes the value through the tracking
hook when `hasattr(self, "_tracker")`; the attribute slot itself is
outside the claims, only the registry effect is modelled. -/
def Metric.setattr (m : Metric) (v : TrackedValue) : Metric :=
  if m.hasTracker then trackerTrack m v else m

/-- Source `Metric.__call__(self, *args, **kwargs)`: checks construction,
then `self.update_state(*args, **kwargs)` followed by
`return self.result()`.  The parameters `updateFn` and `resultFn` stand
for the (possibly overridden) methods resolved dynamically on `self`. -/
def Metric.call
    (updateFn : Metric → Store → List Value → Except MetricError (Metric × Store))
    (resultFn : Metric → Store → Except MetricError Value)
    (m : Metric) (σ : Store) (args : List Value) : Except MetricError Value :=
  match m.check_super_called with
  | .error e => .error e
  | .ok _ =>
    match updateFn m σ args with
    | .error e => .error e
    | .ok (m2, σ2) => resultFn m2 σ2

/-- The default `update_state` adapted to the `Metric.call` interface. -/
def defaultUpdateFn (m : Metric) (σ : Store) (args : List Value) :
    Except MetricError (Metric × Store) :=
  match m.update_state args with
  | .error e => .error e
  | .ok m2 => .ok (m2, σ)

/-- Serialized config: "a mapping with exactly two entries, `name` and
`dtype`, both scalar". -/
structure Config where
  name : String
  dtype : Option String
deriving DecidableEq, Repr

/-- Source `Metric.get_config(self)`: returns
`{"name": self.name, "dtype": self.dtype}`. -/
def Metric.get_config (m : Metric) : Config :=
  ⟨m.name, m.dtype⟩

/-- Source `Metric.from_config(cls, config)`: `cls(**config)`, i.e. a
fresh call to `Metric.__init__` with the dtype and name from the config.
Here `oid` is the identity of the new instance. -/
def Metric.from_config (oid : Nat) (clsName : String) (c : Config) : Metric :=
  Metric.init oid clsName c.dtype (some c.name)

mutual

/-- The effective variable set as worded in the spec overview: own
variables together with ALL descendant variables, recursively.  Stated
from the spec wording for comparison with the source `variables`
property. -/
def specVariables : Metric → List MVariable
  | .mk _ _ _ ms vs _ _ _ => vs ++ specVariablesList ms

/-- Concatenation of `specVariables` over a list of metrics. -/
def specVariablesList : List Metric → List MVariable
  | [] => []
  | m :: ms => specVariables m ++ specVariablesList ms

end

/-! ## Fixtures for concrete evaluations -/

/-- Scalar variable owned by the top metric in the fixtures. -/
def vTop : MVariable := ⟨1, [], none, some "t", false⟩

/-- Scalar variable owned by the child metric in the fixtures. -/
def vChild : MVariable := ⟨2, [], none, some "c", false⟩

/-- Scalar variable owned by the grandchild metric in the fixtures. -/
def vGrand : MVariable := ⟨3, [], none, some "g", false⟩

/-- Grandchild metric of the depth-2 chain. -/
def grandM : Metric := .mk 30 "grand" none [] [vGrand] true [3] []

/-- Child metric of the depth-2 chain; owns `grandM`. -/
def childM : Metric := .mk 20 "child" none [grandM] [vChild] true [2] [30]

/-- Top metric of the depth-2 chain; owns `childM`. -/
def topM : Metric := .mk 10 "top" none [childM] [vTop] true [1] [20]

/-- Childless child metric of the depth-1 tree. -/
def child1M : Metric := .mk 21 "child1" none [] [vChild] true [2] []

/-- Top metric of the depth-1 tree; owns `child1M`. -/
def top1M : Metric := .mk 11 "top1" none [child1M] [vTop] true [1] [21]

/-- An instance on which base construction was skipped. -/
def rawM : Metric := .mk 40 "raw" none [] [] false [] []

/-- A store holding 7 everywhere, to observe values that are not reset. -/
def store7 : Store := fun _ => 7

/-! ## Helper lemmas -/

/-- Unfolding of the extend loop in the `variables` property. -/
theorem foldl_extend_eq (ms : List Metric) (acc : List MVariable) :
    ms.foldl (fun a c => a ++ c.varsList) acc =
      acc ++ (ms.map Metric.varsList).flatten := by
  induction ms generalizing acc with
  | nil => simp
  | cons c ms ih => simp [List.foldl_cons, ih]

/-- The `variables` property is the own registry followed by the
concatenation of each direct child registry. -/
theorem Metric.variables_eq (m : Metric) :
    m.variables = m.varsList ++ (m.metricsList.map Metric.varsList).flatten := by
  simp [Metric.variables, foldl_extend_eq]

/-- Pointwise reading of the zero-assignment loop of `reset_state`. -/
theorem foldl_assign_zero (l : List MVariable) (σ : Store) (i : Nat) :
    (l.foldl (fun s v => s.assign v.vid 0) σ) i =
      if i ∈ l.map MVariable.vid then 0 else σ i := by
  induction l generalizing σ with
  | nil => simp
  | cons v l ih =>
    simp only [List.foldl_cons, ih, List.map_cons, List.mem_cons]
    by_cases hmem : i ∈ l.map MVariable.vid
    · simp [hmem]
    · by_cases heq : i = v.vid
      · simp [hmem, heq, Store.assign]
      · simp [hmem, heq, Store.assign]

/-- The tracking hook never changes the construction flag. -/
theorem trackerTrack_hasTracker (m : Metric) (w : TrackedValue) :
    (trackerTrack m w).hasTracker = m.hasTracker := by
  cases m with
  | mk o n d ms vs t svi smi =>
    cases w with
    | var v =>
      by_cases h : v.vid ∈ svi <;> simp [trackerTrack, h, Metric.hasTracker]
    | metric c =>
      by_cases h : c.oid ∈ smi <;> simp [trackerTrack, h, Metric.hasTracker]
    | other => rfl

/-- Tracking the same value twice is the same as tracking it once. -/
theorem trackerTrack_idem (m : Metric) (w : TrackedValue) :
    trackerTrack (trackerTrack m w) w = trackerTrack m w := by
  cases m with
  | mk o n d ms vs t svi smi =>
    cases w with
    | var v =>
      by_cases h : v.vid ∈ svi
      · simp [trackerTrack, h]
      · simp [trackerTrack, h, List.mem_append]
    | metric c =>
      by_cases h : c.oid ∈ smi
      · simp [trackerTrack, h]
      · simp [trackerTrack, h, List.mem_append]
    | other => rfl

/-- A metric whose child registry is empty has no descendant variables
beyond its own. -/
theorem specVariables_of_no_children (c : Metric) (h : c.metricsList = []) :
    specVariables c = c.varsList := by
  cases c with
  | mk o n d ms vs t svi smi =>
    simp only [Metric.metricsList] at h
    subst h
    simp [specVariables, specVariablesList, Metric.varsList]

/-! ## Claim theorems -/

/-- C1, counterexample: in the chain `topM` → `childM` → `grandM`, the
grandchild variable `vGrand` is a descendant variable of `topM` (it is in
the recursive closure `specVariables topM`) but is NOT in the list
returned by the `variables` property of `topM`, contradicting the claim
that grandchild variables are included in the effective set. -/
theorem metric_variables_grandchild_missing :
    vGrand ∈ specVariables topM ∧ vGrand ∉ topM.variables := by
  decide

/-- C1, amended: for EVERY metric, the `variables` property returns the
own variables first, in insertion order, followed by the own variables of
each DIRECT child metric, in child order — grandchild variables are not
included in general (first conjunct, unconditional).  When no direct
child has children of its own, this coincides with the full descendant
closure (second conjunct, one direction only). -/
theorem metric_variables_own_append_children (m : Metric) :
    m.variables = m.varsList ++ (m.metricsList.map Metric.varsList).flatten ∧
    ((∀ c ∈ m.metricsList, c.metricsList = []) →
      m.variables = specVariables m) := by
  refine ⟨m.variables_eq, fun h => ?_⟩
  rw [m.variables_eq]
  cases m with
  | mk o n d ms vs t svi smi =>
    simp only [Metric.metricsList] at h
    simp only [Metric.varsList, Metric.metricsList, specVariables]
    congr 1
    induction ms with
    | nil => simp [specVariablesList]
    | cons c ms ih =>
      simp only [List.map_cons, List.flatten_cons, specVariablesList]
      rw [specVariables_of_no_children c (h c (by simp)),
        ih (fun x hx => h x (by simp [hx]))]

/-- C1, witness for the amended theorem: the unconditional decomposition
at the depth-2 chain `topM` (whose child does have a child), and the
closure coincidence at the depth-1 tree `top1M`, discharging the inner
hypothesis there. -/
theorem metric_variables_own_append_children_witness :
    (topM.variables =
      topM.varsList ++ (topM.metricsList.map Metric.varsList).flatten) ∧
    (∀ c ∈ top1M.metricsList, c.metricsList = []) ∧
    top1M.variables = specVariables top1M := by
  have h : ∀ c ∈ top1M.metricsList, c.metricsList = [] := by
    intro c hc
    rw [show top1M.metricsList = [child1M] from rfl] at hc
    simp only [List.mem_singleton] at hc
    subst hc
    rfl
  exact ⟨(metric_variables_own_append_children topM).1, h,
    (metric_variables_own_append_children top1M).2 h⟩

/-- C4, counterexample: `reset_state` on `topM` leaves the grandchild
variable `vGrand` — a descendant variable — at its previous value 7
instead of zero, because the loop runs over the `variables` property,
which omits grandchildren. -/
theorem metric_reset_state_grandchild_not_reset :
    vGrand ∈ specVariables topM ∧ topM.reset_state store7 vGrand.vid = 7 :=
  ⟨by decide, rfl⟩

/-- C4, amended: `reset_state` assigns zero to every variable in the list
returned by the `variables` property (own variables and the direct children
own variables); after `reset_state`, every such variable reads as zero.
Variables of deeper descendants are not reset. -/
theorem metric_reset_state_zeroes_variables (m : Metric) (σ : Store)
    (v : MVariable) (hv : v ∈ m.variables) :
    m.reset_state σ v.vid = 0 := by
  have hmem : v.vid ∈ m.variables.map MVariable.vid :=
    List.mem_map_of_mem _ hv
  unfold Metric.reset_state
  rw [foldl_assign_zero]
  simp [hmem]

/-- C4, witness for the amended theorem: the child variable of `topM`
reads zero after `reset_state`. -/
theorem metric_reset_state_zeroes_variables_witness :
    vChild ∈ topM.variables ∧ topM.reset_state store7 vChild.vid = 0 :=
  ⟨by decide, metric_reset_state_zeroes_variables topM store7 vChild (by decide)⟩

/-- C2: on an instance whose base construction has not completed,
`add_variable` and `__call__` return the `RuntimeError` of
`_check_super_called`, whatever the arguments and whatever methods
`update_state` and `result` resolve to; the error is produced before any
variable is created and before any update or result is attempted. -/
theorem metric_unconstructed_raises (m : Metric) (h : m.hasTracker = false)
    (σ : Store) (fresh : Nat) (shape : List Nat) (i : Initializer)
    (d nm : Option String)
    (u : Metric → Store → List Value → Except MetricError (Metric × Store))
    (r : Metric → Store → Except MetricError Value) (args : List Value) :
    m.add_variable σ fresh shape i d nm = .error .superNotCalled ∧
    Metric.call u r m σ args = .error .superNotCalled := by
  constructor
  · unfold Metric.add_variable Metric.check_super_called
    simp [h]
  · unfold Metric.call Metric.check_super_called
    simp [h]

/-- C2, witness at the skipped-construction instance `rawM`. -/
theorem metric_unconstructed_raises_witness :
    rawM.hasTracker = false ∧
    (rawM.add_variable store7 5 [] ⟨0⟩ none none = .error .superNotCalled ∧
     Metric.call defaultUpdateFn Metric.result rawM store7 [] =
       .error .superNotCalled) :=
  ⟨rfl, metric_unconstructed_raises rawM rfl store7 5 [] ⟨0⟩ none none
    defaultUpdateFn Metric.result []⟩

/-- C3: the default (unoverridden) `update_state` raises
`NotImplementedError` on any arguments, and the default `result` raises
`NotImplementedError`. -/
theorem metric_default_update_result_not_implemented (m : Metric)
    (args : List Value) (σ : Store) :
    m.update_state args = .error .notImplementedError ∧
    m.result σ = .error .notImplementedError :=
  ⟨rfl, rfl⟩

/-- An update function for witnesses: leaves the metric alone and writes 5
into cell 0 of the store. -/
def u0fn : Metric → Store → List Value → Except MetricError (Metric × Store) :=
  fun m σ _ => .ok (m, σ.assign 0 5)

/-- A result function for witnesses: reads cell 0 of the store. -/
def r0fn : Metric → Store → Except MetricError Value :=
  fun _ σ => .ok (σ 0)

/-- A freshly constructed base metric for witnesses. -/
def m50 : Metric := Metric.init 50 "Metric" none none

/-- C5: on a metric whose base construction has completed, the call entry
point `__call__` is `update_state` on the inputs followed by `result`, and
it returns the value of `result` (or the first error raised). -/
theorem metric_call_is_update_then_result
    (u : Metric → Store → List Value → Except MetricError (Metric × Store))
    (r : Metric → Store → Except MetricError Value)
    (m : Metric) (σ : Store) (args : List Value) (h : m.hasTracker = true) :
    Metric.call u r m σ args =
      match u m σ args with
      | .error e => .error e
      | .ok (m2, σ2) => r m2 σ2 := by
  unfold Metric.call Metric.check_super_called
  simp [h]

/-- C5, witness: invoking `m50` with an update that stores 5 and a result
that reads it back returns 5, the value of `result` after `update_state`. -/
theorem metric_call_is_update_then_result_witness :
    m50.hasTracker = true ∧ Metric.call u0fn r0fn m50 store7 [] = .ok 5 := by
  refine ⟨rfl, ?_⟩
  rw [metric_call_is_update_then_result u0fn r0fn m50 store7 [] rfl]
  rfl

/-- Concatenating a nonempty suffix onto a string never yields the empty
string. -/
theorem append_ne_empty (c : String) : c ++ "_1" ≠ "" := by
  intro hc
  have hlen := congrArg String.length hc
  simp [String.length_append] at hlen
  exact absurd hlen.2 (by decide)

/-- C6: `get_config` is exactly the two-entry mapping of `name` and
`dtype`; `from_config` of that mapping is a fresh instance with identical
name and dtype, empty registries (no accumulated state restored) and
completed construction.  The last conjunct shows the hypothesis holds for
every instance produced by `Metric.__init__`: its name is never the empty
string. -/
theorem metric_config_round_trip (m : Metric) (oid2 : Nat) (cls : String)
    (h : m.name ≠ "") :
    m.get_config = ⟨m.name, m.dtype⟩ ∧
    (Metric.from_config oid2 cls m.get_config).name = m.name ∧
    (Metric.from_config oid2 cls m.get_config).dtype = m.dtype ∧
    (Metric.from_config oid2 cls m.get_config).varsList = [] ∧
    (Metric.from_config oid2 cls m.get_config).metricsList = [] ∧
    (Metric.from_config oid2 cls m.get_config).hasTracker = true ∧
    (∀ (o : Nat) (c : String) (d : Option String) (nm : Option String),
      (Metric.init o c d nm).name ≠ "") := by
  refine ⟨rfl, ?_, rfl, rfl, rfl, rfl, ?_⟩
  · show pyOrName (some m.name) (autoName cls) = m.name
    simp [pyOrName, h]
  · intro o c d nm
    cases nm with
    | none => simpa [Metric.init, Metric.name, pyOrName, autoName] using
        append_ne_empty c
    | some s =>
      by_cases hs : s = ""
      · simpa [Metric.init, Metric.name, pyOrName, autoName, hs] using
          append_ne_empty c
      · simp [Metric.init, Metric.name, pyOrName, hs]

/-- C6, witness: the config round-trip of `topM` reproduces the name
`"top"` with fresh (empty) registries. -/
theorem metric_config_round_trip_witness :
    topM.name ≠ "" ∧
    ((Metric.from_config 99 "Metric" topM.get_config).name = topM.name ∧
     (Metric.from_config 99 "Metric" topM.get_config).varsList = []) := by
  have h := metric_config_round_trip topM 99 "Metric" (by decide)
  exact ⟨by decide, h.2.1, h.2.2.2.1⟩

/-- Attribute assignment is idempotent on the registries. -/
theorem setattr_idem (m : Metric) (w : TrackedValue) :
    (m.setattr w).setattr w = m.setattr w := by
  by_cases h : m.hasTracker = true
  · simp [Metric.setattr, h, trackerTrack_hasTracker, trackerTrack_idem]
  · simp [Metric.setattr, h]

/-- C7: registration is idempotent by object identity.  First conjunct:
assigning the same variable or child metric twice via the attribute hook
equals assigning it once.  Second conjunct: the id recorded by
`add_variable` in `stored_ids` makes the subsequent attribute assignment
of the returned variable a no-op (no double tracking).  Third conjunct: a
variable not yet registered occurs exactly once in `variables` after
being assigned twice. -/
theorem metric_registration_idempotent :
    (∀ (m : Metric) (w : TrackedValue),
      (m.setattr w).setattr w = m.setattr w) ∧
    (∀ (m m2 : Metric) (σ σ2 : Store) (fresh : Nat) (shape : List Nat)
       (i : Initializer) (d nm : Option String) (v : MVariable),
       m.add_variable σ fresh shape i d nm = .ok (m2, σ2, v) →
       m2.setattr (.var v) = m2) ∧
    (∀ (m : Metric) (v : MVariable), m.hasTracker = true →
       v.vid ∉ m.storedVarIds →
       (m.variables.map MVariable.vid).count v.vid = 0 →
       (((m.setattr (.var v)).setattr (.var v)).variables.map
         MVariable.vid).count v.vid = 1) := by
  refine ⟨setattr_idem, ?_, ?_⟩
  · intro m m2 σ σ2 fresh shape i d nm v h
    cases m with
    | mk o n dd ms vs t svi smi =>
      cases t with
      | false =>
        simp [Metric.add_variable, Metric.check_super_called,
          Metric.hasTracker] at h
      | true =>
        simp only [Metric.add_variable, Metric.check_super_called,
          Metric.hasTracker, if_pos, Except.ok.injEq, Prod.mk.injEq] at h
        obtain ⟨hm2, _, hv⟩ := h
        subst hm2
        subst hv
        simp [Metric.setattr, Metric.hasTracker, trackerTrack,
          backendVariable, List.mem_append]
  · intro m v ht hns hcount
    cases m with
    | mk o n dd ms vs t svi smi =>
      simp only [Metric.hasTracker] at ht
      subst ht
      simp only [Metric.storedVarIds] at hns
      rw [Metric.variables_eq] at hcount
      simp only [Metric.varsList, Metric.metricsList, List.map_append,
        List.count_append] at hcount
      have h1 : (Metric.mk o n dd ms vs true svi smi).setattr (.var v) =
          Metric.mk o n dd ms (vs ++ [v]) true (svi ++ [v.vid]) smi := by
        simp [Metric.setattr, Metric.hasTracker, trackerTrack, hns]
      have h2 : (Metric.mk o n dd ms (vs ++ [v]) true (svi ++ [v.vid])
            smi).setattr (.var v) =
          Metric.mk o n dd ms (vs ++ [v]) true (svi ++ [v.vid]) smi := by
        simp [Metric.setattr, Metric.hasTracker, trackerTrack,
          List.mem_append]
      rw [h1, h2, Metric.variables_eq]
      simp only [Metric.varsList, Metric.metricsList, List.map_append,
        List.count_append]
      have hone : ([v].map MVariable.vid).count v.vid = 1 := by
        simp
      omega

/-- A freshly constructed base metric for the registration witness. -/
def m60 : Metric := Metric.init 60 "Metric" none none

/-- The variable created on `m60` by `add_variable` with identity 7. -/
def v61 : MVariable := backendVariable 7 [] none false none

/-- The metric `m60` after that `add_variable` call. -/
def m61 : Metric := .mk 60 (autoName "Metric") none [] [v61] true [7] []

/-- C7, witness: double assignment of `vTop` on `m60` equals a single
assignment; assigning the variable returned by `add_variable` back onto
the result is a no-op; and `vTop` occurs exactly once in `variables`
after being assigned twice. -/
theorem metric_registration_idempotent_witness :
    ((m60.setattr (.var vTop)).setattr (.var vTop) = m60.setattr (.var vTop)) ∧
    (m61.setattr (.var v61) = m61) ∧
    ((((m60.setattr (.var vTop)).setattr (.var vTop)).variables.map
        MVariable.vid).count vTop.vid = 1) :=
  ⟨metric_registration_idempotent.1 m60 (.var vTop),
   metric_registration_idempotent.2.1 m60 m61 store7 (store7.assign 7 0) 7 []
     ⟨0⟩ none none v61 rfl,
   metric_registration_idempotent.2.2 m60 vTop rfl (by decide) (by decide)⟩

/-- C8: `add_weight` delegates to `add_variable` with the same arguments:
identical construction check, identical variable creation and
registration, identical result and errors. -/
theorem metric_add_weight_is_add_variable (m : Metric) (σ : Store)
    (fresh : Nat) (shape : List Nat) (i : Initializer)
    (d nm : Option String) :
    m.add_weight σ fresh shape i d nm = m.add_variable σ fresh shape i d nm :=
  rfl

/-- C9: on an instance whose base construction was skipped, the default
`update_state` and `result` still raise `NotImplementedError` — they make
no construction check — while `__call__` on the same instance raises the
construction `RuntimeError` before reaching them. -/
theorem metric_unconstructed_defaults_not_implemented (m : Metric)
    (h : m.hasTracker = false) (args : List Value) (σ : Store) :
    m.update_state args = .error .notImplementedError ∧
    m.result σ = .error .notImplementedError ∧
    Metric.call defaultUpdateFn Metric.result m σ args =
      .error .superNotCalled := by
  refine ⟨rfl, rfl, ?_⟩
  unfold Metric.call Metric.check_super_called
  simp [h]

/-- C9, witness at the skipped-construction instance `rawM`. -/
theorem metric_unconstructed_defaults_not_implemented_witness :
    rawM.update_state [] = .error .notImplementedError ∧
    rawM.result store7 = .error .notImplementedError ∧
    Metric.call defaultUpdateFn Metric.result rawM store7 [] =
      .error .superNotCalled :=
  metric_unconstructed_defaults_not_implemented rawM rfl [] store7

/-- C10: a successful `add_variable` appends exactly one new variable at
the end of the own registry and changes nothing else: identity, name,
dtype, child registry, tracked metric ids and all previously registered
variables (and their stored values) are unchanged; the returned variable
is the new one, non-trainable, carrying the requested identity, shape,
dtype and name; its cell holds the resolved initializer value. -/
theorem metric_add_variable_frame (m m2 : Metric) (σ σ2 : Store)
    (v : MVariable) (fresh : Nat) (shape : List Nat) (i : Initializer)
    (d nm : Option String) (ht : m.hasTracker = true)
    (hfresh : ∀ w ∈ m.variables, w.vid ≠ fresh)
    (h : m.add_variable σ fresh shape i d nm = .ok (m2, σ2, v)) :
    m2.varsList = m.varsList ++ [v] ∧
    v = ⟨fresh, shape, d, nm, false⟩ ∧
    m2.oid = m.oid ∧ m2.name = m.name ∧ m2.dtype = m.dtype ∧
    m2.metricsList = m.metricsList ∧ m2.hasTracker = true ∧
    m2.storedVarIds = m.storedVarIds ++ [fresh] ∧
    m2.storedMetricIds = m.storedMetricIds ∧
    σ2 fresh = (initializersGet i).initValue ∧
    (∀ w ∈ m.variables, σ2 w.vid = σ w.vid) := by
  cases m with
  | mk o n dd ms vs t svi smi =>
    simp only [Metric.hasTracker] at ht
    subst ht
    simp only [Metric.add_variable, Metric.check_super_called,
      Metric.hasTracker, if_pos, Except.ok.injEq, Prod.mk.injEq] at h
    obtain ⟨hm2, hσ2, hv⟩ := h
    subst hm2
    subst hσ2
    subst hv
    refine ⟨rfl, rfl, rfl, rfl, rfl, rfl, rfl, rfl, rfl, ?_, ?_⟩
    · simp [Store.assign]
    · intro w hw
      have hne : w.vid ≠ fresh := hfresh w hw
      simp [Store.assign, hne]

/-- The variable created on `topM` by `add_variable` with identity 9. -/
def v9 : MVariable := ⟨9, [], none, none, false⟩

/-- The metric `topM` after that `add_variable` call. -/
def topM9 : Metric := .mk 10 "top" none [childM] [vTop, v9] true [1, 9] [20]

/-- C10, witness: adding a variable to `topM` appends it to the own
registry, leaves the child registry alone and preserves the stored value
of the previously registered child variable. -/
theorem metric_add_variable_frame_witness :
    topM9.varsList = topM.varsList ++ [v9] ∧
    topM9.metricsList = topM.metricsList ∧
    (store7.assign 9 5) vChild.vid = store7 vChild.vid := by
  have h := metric_add_variable_frame topM topM9 store7 (store7.assign 9 5)
    v9 9 [] ⟨5⟩ none none rfl (by decide) rfl
  exact ⟨h.1, h.2.2.2.2.2.1, h.2.2.2.2.2.2.2.2.2.2 vChild (by decide)⟩

end KerasCore
